import Mathlib

/-
Verification of the ADE all-task dataset mapper
(src/mask2former/data/dataset_mappers/ade_all_task_dataset_mapper.py).

The mapper turns one dataset record (image path, optional semantic label
path, optional panoptic label path plus a segment table) into per-task
target bundles.  We embed:

  * the panoptic target loop (lines 115-132),
  * the instance target loop (lines 140-158),
  * the semantic target construction (lines 187-212),
  * the padding stage (lines 167-179, torch.nn.functional.pad semantics),
  * the orchestration of one call (lines 59-216), with the Python runtime
    failures the body can raise represented as an error type.

Label maps are 2D integer grids (pixel access as a function plus explicit
height and width).  Boolean masks are pixel predicates.  External
collaborators (image reading, rgb2id decoding, the augmentation pipeline)
are abstract functions supplied through an environment.
-/

namespace FreeSeg

/-- Boolean mask over pixel coordinates (row, column). -/
def Mask : Type := Nat → Nat → Bool

/-- A 2D integer array with explicit spatial shape, as produced by
reading a label image (and by rgb2id for the panoptic map). -/
structure Grid where
  H : Nat
  W : Nat
  px : Nat → Nat → Int

/-- The mask comparison used at lines 119, 145 and 196 of the source:
the boolean array equal to (array == value). -/
def maskEq (g : Grid) (v : Int) : Mask := fun r c => g.px r c == v

/-- One entry of the segments_info table.  The iscrowd field is optional
because the source treats a missing iscrowd key specially at line 142,
while line 117 reads it unconditionally. -/
structure SegmentInfo where
  id : Int
  category_id : Int
  iscrowd : Option Bool
  isthing : Bool
deriving DecidableEq

/-- Python runtime failures that the body of ADEDatasetMapper.call can
raise, by source line:
line 70 raises KeyError when file_name is missing;
line 108 raises ValueError when "annotations" is present next to
panoptic fields; line 117 raises KeyError when a segment lacks the
iscrowd key; line 152 raises NameError because the name Boxes is not
imported by this module; line 165 raises TypeError because image is
already a torch tensor there and Tensor.transpose is called with three
index arguments. -/
inductive PyError where
  | keyErrorFileName
  | mixedFieldsError
  | keyErrorIscrowd
  | nameErrorBoxes
  | typeErrorTranspose
deriving DecidableEq

/-- Panoptic target loop, lines 115-119: for each segment read
category_id, read iscrowd (KeyError when absent), and when the segment
is not crowd append the class and the mask (pan_seg_gt == id). -/
def panLoop (g : Grid) : List SegmentInfo → List Int × List Mask →
    Except PyError (List Int × List Mask)
  | [], acc => .ok acc
  | s :: rest, (cs, ms) =>
    match s.iscrowd with
    | none => .error .keyErrorIscrowd
    | some b =>
      if !b then panLoop g rest (cs ++ [s.category_id], ms ++ [maskEq g s.id])
      else panLoop g rest (cs, ms)

/-- Instance target loop, lines 140-145: keep a segment when iscrowd is
missing or false, and isthing is true. -/
def insLoop (g : Grid) : List SegmentInfo → List Int × List Mask →
    List Int × List Mask
  | [], acc => acc
  | s :: rest, (cs, ms) =>
    if s.iscrowd.isNone || (s.iscrowd == some false) then
      if s.isthing then insLoop g rest (cs ++ [s.category_id], ms ++ [maskEq g s.id])
      else insLoop g rest (cs, ms)
    else insLoop g rest (cs, ms)

/-- All pixel values of a grid, row major. -/
def gridValues (g : Grid) : List Int :=
  (List.range g.H).flatMap (fun r => (List.range g.W).map (fun c => g.px r c))

/-- np.unique (line 189): the sorted list of distinct values. -/
def npUnique (l : List Int) : List Int := l.toFinset.sort (· ≤ ·)

/-- Lines 189-191: distinct values of the semantic label, with the
ignored label removed by boolean selection. -/
def semClasses (g : Grid) (ignore_label : Int) : List Int :=
  (npUnique (gridValues g)).filter (fun c => c != ignore_label)

/-- Semantic mask loop, lines 194-196: one boolean mask per kept class. -/
def semMasksLoop (g : Grid) : List Int → List Mask → List Mask
  | [], acc => acc
  | c :: rest, acc => semMasksLoop g rest (acc ++ [maskEq g c])

/-- Semantic masks of a record, lines 189-196. -/
def semMasks (g : Grid) (ignore_label : Int) : List Mask :=
  semMasksLoop g (semClasses g ignore_label) []

/-- torch.nn.functional.pad on the last two dimensions with padding
list [left, right, top, bottom] and a constant fill value.  Negative
entries remove elements, as in torch. -/
def Fpad (g : Grid) (left right top bottom : Int) (fill : Int) : Grid :=
  { H := ((g.H : Int) + top + bottom).toNat
    W := ((g.W : Int) + left + right).toNat
    px := fun r c =>
      let r2 : Int := (r : Int) - top
      let c2 : Int := (c : Int) - left
      if 0 ≤ r2 ∧ r2 < (g.H : Int) ∧ 0 ≤ c2 ∧ c2 < (g.W : Int) then
        g.px r2.toNat c2.toNat
      else fill }

/-- Padding stage, lines 167-179: when size_divisibility > 0 the padding
list is [0, d - W, 0, d - H] computed from the image size and applied to
both the image (fill 128) and the semantic label (fill ignore_label). -/
def paddingStage (size_divisibility : Nat) (ignore_label : Int)
    (image sem : Grid) : Grid × Grid :=
  if size_divisibility > 0 then
    let d : Int := size_divisibility
    let padRight : Int := d - (image.W : Int)
    let padBottom : Int := d - (image.H : Int)
    (Fpad image 0 padRight 0 padBottom 128,
     Fpad sem 0 padRight 0 padBottom ignore_label)
  else (image, sem)

/-- An axis-aligned box (xmin, ymin, xmax + 1, ymax + 1). -/
abbrev Box := Nat × Nat × Nat × Nat

/-- Modelled from the spec: the box extractor used at line 158 is
detectron2's BitMasks.get_bounding_boxes, outside this repository.  Per
the spec it derives, purely from a mask, the tight axis-aligned bounding
box over its set pixels (min and max row and column, in the xyxy
convention xmax and ymax exclusive), and the zero box when no pixel is
set. -/
def maskBox (H W : Nat) (m : Mask) : Box :=
  let xs := (List.range W).filter (fun c => (List.range H).any (fun r => m r c))
  let ys := (List.range H).filter (fun r => (List.range W).any (fun c => m r c))
  match xs.min?, ys.min?, xs.max?, ys.max? with
  | some x0, some y0, some x1, some y1 => (x0, y0, x1 + 1, y1 + 1)
  | _, _, _, _ => (0, 0, 0, 0)

/-- Boxes of an instance mask list, line 158. -/
def insBoxes (H W : Nat) (ms : List Mask) : List Box := ms.map (maskBox H W)

/-- A detectron2 Instances object as used here: a spatial shape plus the
fields the mapper assigns (gt_boxes only for the instance bundle). -/
structure Instances where
  H : Nat
  W : Nat
  gt_classes : List Int
  gt_masks : List Mask
  gt_boxes : Option (List Box)

/-- One dataset record.  Option fields model key presence in the Python
mapping; hasBoxField models presence of the "annotations" key checked at
line 107.  Bundle fields are absent on input and attached by the mapper. -/
structure Record where
  file_name : Option String
  sem_seg_file_name : Option String
  pan_seg_file_name : Option String
  segments_info : List SegmentInfo
  hasBoxField : Bool
  pan_instances : Option Instances := none
  ins_instances : Option Instances := none
  sem_instances : Option Instances := none

/-- External collaborators: image and label reading (readPan includes
the rgb2id decoding of line 98) and the augmentation pipeline (augSeg is
transforms.apply_segmentation of line 94). -/
structure Env where
  readImage : String → Grid
  readSem : String → Grid
  augImage : Grid → Grid
  augSem : Grid → Grid
  readPan : String → Grid
  augSeg : Grid → Grid

/-- Embedding of ADEDatasetMapper.call (lines 59-216) on a deep copy of
the input record.  The record is read through line 70 (KeyError when
file_name is missing), sem_seg_file_name is popped at line 76,
pan_seg_file_name is popped at line 90; without a panoptic file the body
attaches nothing and returns.  With one, the segment loops run in order;
an empty instance mask list raises NameError at line 152 because Boxes
is not imported, and when a semantic label is present line 165 raises
TypeError before the semantic block (image is a tensor there, and
Tensor.transpose does not take three index arguments), so sem_instances
is never attached.  The Instances spatial shape is the label map shape,
which the identically-augmented image shares at line 86. -/
def mapperCall (env : Env) (d0 : Record) : Except PyError Record :=
  match d0.file_name with
  | none => .error .keyErrorFileName
  | some fp =>
    let _image := env.augImage (env.readImage fp)
    let semT : Option Grid := (d0.sem_seg_file_name.map env.readSem).map env.augSem
    let d1 : Record := { d0 with sem_seg_file_name := none }
    match d0.pan_seg_file_name with
    | none => .ok d1
    | some pp =>
      let pan : Grid := env.augSeg (env.readPan pp)
      let d2 : Record := { d1 with pan_seg_file_name := none }
      if d0.hasBoxField then .error .mixedFieldsError
      else
        match panLoop pan d0.segments_info ([], []) with
        | .error e => .error e
        | .ok (cs, ms) =>
          let d3 : Record :=
            { d2 with pan_instances := some ⟨pan.H, pan.W, cs, ms, none⟩ }
          let pr := insLoop pan d0.segments_info ([], [])
          if pr.2.isEmpty then .error .nameErrorBoxes
          else
            let ib : Instances :=
              ⟨pan.H, pan.W, pr.1, pr.2, some (insBoxes pan.H pan.W pr.2)⟩
            let d4 : Record := { d3 with ins_instances := some ib }
            match semT with
            | some _ => .error .typeErrorTranspose
            | none => .ok d4

section Lemmas

/-- Accumulator form of the panoptic loop: when every segment carries
the iscrowd key the loop succeeds and appends, in table order, the
classes and masks of the non-crowd segments. -/
lemma panLoop_acc (g : Grid) :
    ∀ (segs : List SegmentInfo), (∀ s ∈ segs, (SegmentInfo.iscrowd s).isSome) →
    ∀ cs ms, panLoop g segs (cs, ms) =
      .ok (cs ++ (segs.filter (fun s => s.iscrowd == some false)).map
              (fun s => s.category_id),
           ms ++ (segs.filter (fun s => s.iscrowd == some false)).map
              (fun s => maskEq g s.id))
  | [], _, cs, ms => by simp [panLoop]
  | s :: rest, h, cs, ms => by
    have hs : (SegmentInfo.iscrowd s).isSome := h s (List.mem_cons_self s rest)
    have hrest : ∀ t ∈ rest, (SegmentInfo.iscrowd t).isSome :=
      fun t ht => h t (List.mem_cons_of_mem s ht)
    obtain ⟨b, hb⟩ := Option.isSome_iff_exists.mp hs
    cases b with
    | false =>
      simp only [panLoop, hb, Bool.not_false, if_pos rfl]
      rw [panLoop_acc g rest hrest]
      simp [hb, List.filter_cons, List.append_assoc]
    | true =>
      simp only [panLoop, hb, Bool.not_true]
      rw [if_neg (by simp), panLoop_acc g rest hrest]
      simp [hb, List.filter_cons]

/-- Accumulator form of the instance loop: it appends, in table order,
the classes and masks of the segments whose iscrowd key is missing or
false and whose isthing flag is true. -/
lemma insLoop_acc (g : Grid) :
    ∀ (segs : List SegmentInfo) (cs : List Int) (ms : List Mask),
    insLoop g segs (cs, ms) =
      (cs ++ (segs.filter (fun s =>
          (s.iscrowd.isNone || s.iscrowd == some false) && s.isthing)).map
            (fun s => s.category_id),
       ms ++ (segs.filter (fun s =>
          (s.iscrowd.isNone || s.iscrowd == some false) && s.isthing)).map
            (fun s => maskEq g s.id))
  | [], cs, ms => by simp [insLoop]
  | s :: rest, cs, ms => by
    simp only [insLoop]
    split
    next hc =>
      split
      next ht =>
        rw [insLoop_acc g rest]
        simp [List.filter_cons, hc, ht, List.append_assoc]
      next ht =>
        rw [insLoop_acc g rest]
        simp [List.filter_cons, hc, ht]
    next hc =>
      rw [insLoop_acc g rest]
      simp [List.filter_cons, hc]

/-- Inversion of a successful panoptic loop run: the outputs extend the
accumulators with the non-crowd classes and masks in table order. -/
lemma panLoop_ok_inv (g : Grid) :
    ∀ (segs : List SegmentInfo) (cs : List Int) (ms : List Mask) cs2 ms2,
    panLoop g segs (cs, ms) = .ok (cs2, ms2) →
      cs2 = cs ++ (segs.filter (fun s => s.iscrowd == some false)).map
              (fun s => s.category_id) ∧
      ms2 = ms ++ (segs.filter (fun s => s.iscrowd == some false)).map
              (fun s => maskEq g s.id)
  | [], cs, ms, cs2, ms2 => by
    simp only [panLoop, Except.ok.injEq, Prod.mk.injEq, List.filter_nil,
      List.map_nil, List.append_nil]
    exact fun h => ⟨h.1.symm, h.2.symm⟩
  | s :: rest, cs, ms, cs2, ms2 => by
    intro h
    simp only [panLoop] at h
    cases hb : s.iscrowd with
    | none => rw [hb] at h; exact absurd h (by simp)
    | some b =>
      rw [hb] at h
      cases b with
      | false =>
        simp only [Bool.not_false, if_pos rfl] at h
        obtain ⟨h1, h2⟩ := panLoop_ok_inv g rest _ _ _ _ h
        constructor
        · rw [h1]; simp [List.filter_cons, hb, List.append_assoc]
        · rw [h2]; simp [List.filter_cons, hb, List.append_assoc]
      | true =>
        simp only [Bool.not_true, Bool.false_eq_true, if_false] at h
        obtain ⟨h1, h2⟩ := panLoop_ok_inv g rest _ _ _ _ h
        constructor
        · rw [h1]; simp [List.filter_cons, hb]
        · rw [h2]; simp [List.filter_cons, hb]

/-- The only failure the panoptic loop produces is the KeyError of a
missing iscrowd key. -/
lemma panLoop_error (g : Grid) :
    ∀ (segs : List SegmentInfo) (acc : List Int × List Mask) (e : PyError),
    panLoop g segs acc = .error e → e = .keyErrorIscrowd
  | [], acc, e => by simp [panLoop]
  | s :: rest, (cs, ms), e => by
    intro h
    simp only [panLoop] at h
    cases hb : s.iscrowd with
    | none => rw [hb] at h; simpa using h.symm
    | some b =>
      rw [hb] at h
      cases b with
      | false =>
        simp only [Bool.not_false, if_pos rfl] at h
        exact panLoop_error g rest _ e h
      | true =>
        simp only [Bool.not_true, Bool.false_eq_true, if_false] at h
        exact panLoop_error g rest _ e h

/-- When some segment lacks the iscrowd key, the panoptic loop fails
with the KeyError of line 117. -/
lemma panLoop_missing (g : Grid) :
    ∀ (segs : List SegmentInfo), (∃ s ∈ segs, s.iscrowd = none) →
    ∀ (acc : List Int × List Mask),
      panLoop g segs acc = .error .keyErrorIscrowd
  | [], h, acc => by simp at h
  | s :: rest, h, (cs, ms) => by
    cases hb : s.iscrowd with
    | none => simp [panLoop, hb]
    | some b =>
      have hrest : ∃ t ∈ rest, t.iscrowd = none := by
        obtain ⟨t, ht, htn⟩ := h
        rcases List.mem_cons.mp ht with rfl | htr
        · rw [hb] at htn; cases htn
        · exact ⟨t, htr, htn⟩
      cases b with
      | false =>
        simp only [panLoop, hb, Bool.not_false, if_pos rfl]
        exact panLoop_missing g rest hrest _
      | true =>
        simp only [panLoop, hb, Bool.not_true]
        rw [if_neg (by simp)]
        exact panLoop_missing g rest hrest _

/-- Accumulator form of the semantic mask loop: one mask per class, in
class order. -/
lemma semMasksLoop_acc (g : Grid) :
    ∀ (cl : List Int) (acc : List Mask),
    semMasksLoop g cl acc = acc ++ cl.map (maskEq g)
  | [], acc => by simp [semMasksLoop]
  | c :: rest, acc => by
    rw [semMasksLoop, semMasksLoop_acc g rest]
    simp [List.append_assoc]

end Lemmas

section Claims

/-- A small concrete label map used to evaluate the theorems. -/
def gEx : Grid := ⟨2, 3, fun r c => Int.ofNat (r * 3 + c)⟩

/-- A small concrete segment table: one plain thing, one crowd thing,
one plain stuff segment. -/
def segsEx : List SegmentInfo :=
  [⟨1, 10, some false, true⟩, ⟨2, 11, some true, true⟩,
   ⟨3, 12, some false, false⟩]

/-- C1: with a panoptic label map and a segment table in which every
segment carries its iscrowd flag, the panoptic bundle holds, in
segment-table order, the category_id of every non-crowd segment in
classes and the boolean mask (LabelMap == id) in masks; crowd segments
contribute neither a class nor a mask. -/
theorem pan_bundle_eq (g : Grid) (segs : List SegmentInfo)
    (h : ∀ s ∈ segs, (SegmentInfo.iscrowd s).isSome) :
    panLoop g segs ([], []) =
      .ok ((segs.filter (fun s => s.iscrowd == some false)).map
             (fun s => s.category_id),
           (segs.filter (fun s => s.iscrowd == some false)).map
             (fun s => maskEq g s.id)) := by
  simpa using panLoop_acc g segs h [] []

/-- Witness for C1 at a concrete label map and segment table. -/
theorem pan_bundle_eq_witness :
    panLoop gEx segsEx ([], []) =
      .ok ((segsEx.filter (fun s => s.iscrowd == some false)).map
             (fun s => s.category_id),
           (segsEx.filter (fun s => s.iscrowd == some false)).map
             (fun s => maskEq gEx s.id)) :=
  pan_bundle_eq gEx segsEx (by decide)

/-- C2: with every segment carrying its iscrowd flag, the instance
bundle keeps exactly the segments with iscrowd false and isthing true,
in segment-table order; crowd or non-thing segments contribute neither
a class nor a mask. -/
theorem ins_bundle_eq (g : Grid) (segs : List SegmentInfo)
    (h : ∀ s ∈ segs, (SegmentInfo.iscrowd s).isSome) :
    insLoop g segs ([], []) =
      ((segs.filter (fun s => (s.iscrowd == some false) && s.isthing)).map
         (fun s => s.category_id),
       (segs.filter (fun s => (s.iscrowd == some false) && s.isthing)).map
         (fun s => maskEq g s.id)) := by
  rw [insLoop_acc g segs [] []]
  have hf : segs.filter
        (fun s => (s.iscrowd.isNone || s.iscrowd == some false) && s.isthing)
      = segs.filter (fun s => (s.iscrowd == some false) && s.isthing) := by
    apply List.filter_congr
    intro s hs
    obtain ⟨b, hb⟩ := Option.isSome_iff_exists.mp (h s hs)
    simp [hb]
  rw [hf]
  simp

/-- Witness for C2 at a concrete label map and segment table. -/
theorem ins_bundle_eq_witness :
    insLoop gEx segsEx ([], []) =
      ((segsEx.filter (fun s => (s.iscrowd == some false) && s.isthing)).map
         (fun s => s.category_id),
       (segsEx.filter (fun s => (s.iscrowd == some false) && s.isthing)).map
         (fun s => maskEq gEx s.id)) :=
  ins_bundle_eq gEx segsEx (by decide)

/-- C3: the semantic classes are exactly the distinct values of the
label array without the ignored label, strictly ascending; the ignored
label never appears; and the masks are (label == class) in class
order. -/
theorem sem_bundle_spec (g : Grid) (ignore_label : Int) :
    List.Sorted (· < ·) (semClasses g ignore_label) ∧
    (∀ c : Int,
      c ∈ semClasses g ignore_label ↔ c ∈ gridValues g ∧ c ≠ ignore_label) ∧
    ignore_label ∉ semClasses g ignore_label ∧
    semMasks g ignore_label = (semClasses g ignore_label).map (maskEq g) := by
  refine ⟨?_, ?_, ?_, ?_⟩
  · have hs : List.Sorted (· < ·) (npUnique (gridValues g)) :=
      Finset.sort_sorted_lt _
    exact List.Pairwise.sublist (List.filter_sublist _) hs
  · intro c
    simp [semClasses, npUnique, List.mem_filter, Finset.mem_sort,
      List.mem_toFinset, bne_iff_ne]
  · simp [semClasses, List.mem_filter]
  · rw [semMasks, semMasksLoop_acc]
    simp

/-- Witness for C3 at a concrete label map and ignored label. -/
theorem sem_bundle_spec_witness :
    List.Sorted (· < ·) (semClasses gEx 255) ∧
    (∀ c : Int, c ∈ semClasses gEx 255 ↔ c ∈ gridValues gEx ∧ c ≠ 255) ∧
    (255 : Int) ∉ semClasses gEx 255 ∧
    semMasks gEx 255 = (semClasses gEx 255).map (maskEq gEx) :=
  sem_bundle_spec gEx 255

/-- A 20 by 40 grid used for the padding claim. -/
def g2040 : Grid := ⟨20, 40, fun _ _ => 0⟩

/-- C4 counterexample: with size_divisibility 32 the padding stage maps
a 20 by 40 image to spatial shape (32, 32), not the claimed (32, 40):
the width amount 32 - 40 is negative and torch.nn.functional.pad then
crops, since the source applies no clamping at zero. -/
theorem padding_claim_cex :
    ((paddingStage 32 255 g2040 g2040).1.H,
     (paddingStage 32 255 g2040 g2040).1.W) = (32, 32) ∧
    ((32 : Nat), (32 : Nat)) ≠ ((32 : Nat), (40 : Nat)) := by
  constructor
  · decide
  · decide

/-- C4 amended: for positive size_divisibility the image is padded, or
for a dimension above the divisor cropped, only at the bottom/right
edge by the signed amount divisor minus dimension, so its spatial shape
becomes (divisor, divisor); retained pixels keep their values and pixels
beyond the original extent hold the fill value 128. -/
theorem padding_amended_thm (d : Nat) (hd : 0 < d) (ignore_label : Int)
    (image sem : Grid) :
    (paddingStage d ignore_label image sem).1.H = d ∧
    (paddingStage d ignore_label image sem).1.W = d ∧
    (∀ r c, r < image.H → c < image.W →
      (paddingStage d ignore_label image sem).1.px r c = image.px r c) ∧
    (∀ r c, image.H ≤ r ∨ image.W ≤ c →
      (paddingStage d ignore_label image sem).1.px r c = 128) := by
  have hp : paddingStage d ignore_label image sem =
      (Fpad image 0 ((d : Int) - image.W) 0 ((d : Int) - image.H) 128,
       Fpad sem 0 ((d : Int) - image.W) 0 ((d : Int) - image.H) ignore_label) := by
    simp [paddingStage, hd]
  rw [hp]
  refine ⟨by simp only [Fpad]; omega, by simp only [Fpad]; omega, ?_, ?_⟩
  · intro r c hr hc
    simp only [Fpad]
    rw [if_pos (by omega)]
    congr 1
  · intro r c hrc
    simp only [Fpad]
    rw [if_neg (by omega)]

/-- Witness for the amended C4 at divisor 32 on the 20 by 40 grid. -/
theorem padding_amended_witness :
    (paddingStage 32 255 g2040 g2040).1.H = 32 ∧
    (paddingStage 32 255 g2040 g2040).1.W = 32 ∧
    (∀ r c, r < g2040.H → c < g2040.W →
      (paddingStage 32 255 g2040 g2040).1.px r c = g2040.px r c) ∧
    (∀ r c, g2040.H ≤ r ∨ g2040.W ≤ c →
      (paddingStage 32 255 g2040 g2040).1.px r c = 128) :=
  padding_amended_thm 32 (by decide) 255 g2040 g2040

/-- Pairwise disjointness of a mask list: no pixel is set in two masks
at distinct indices. -/
def MasksDisjoint (ms : List Mask) : Prop :=
  ∀ i j (hi : i < ms.length) (hj : j < ms.length), i ≠ j →
    ∀ r c, ms.get ⟨i, hi⟩ r c = true → ms.get ⟨j, hj⟩ r c = true → False

/-- Equality masks built from a duplicate-free value list are pairwise
disjoint. -/
lemma masksDisjoint_map (g : Grid) (l : List Int) (h : l.Nodup) :
    MasksDisjoint (l.map (maskEq g)) := by
  intro i j hi hj hne r c h1 h2
  have hi2 : i < l.length := by simpa using hi
  have hj2 : j < l.length := by simpa using hj
  rw [List.get_eq_getElem, List.getElem_map] at h1 h2
  have e1 : g.px r c = l.get ⟨i, hi2⟩ := by
    simpa [maskEq, List.get_eq_getElem] using h1
  have e2 : g.px r c = l.get ⟨j, hj2⟩ := by
    simpa [maskEq, List.get_eq_getElem] using h2
  have : (⟨i, hi2⟩ : Fin l.length) = ⟨j, hj2⟩ :=
    h.get_inj_iff.mp (e1.symm.trans e2)
  exact hne (congrArg Fin.val this)

/-- C7: assuming segment ids are unique within the label map, the masks
of the panoptic bundle, of the instance bundle and of the semantic
bundle are each pairwise disjoint. -/
theorem bundle_masks_disjoint (g : Grid) (segs : List SegmentInfo)
    (ignore_label : Int) (hids : (segs.map SegmentInfo.id).Nodup) :
    (∀ cs ms, panLoop g segs ([], []) = .ok (cs, ms) → MasksDisjoint ms) ∧
    MasksDisjoint (insLoop g segs ([], [])).2 ∧
    MasksDisjoint (semMasks g ignore_label) := by
  refine ⟨?_, ?_, ?_⟩
  · intro cs ms h
    obtain ⟨-, h2⟩ := panLoop_ok_inv g segs [] [] cs ms h
    rw [h2]
    simp only [List.nil_append]
    have hrw : (segs.filter (fun s => s.iscrowd == some false)).map
          (fun s => maskEq g s.id)
        = ((segs.filter (fun s => s.iscrowd == some false)).map
            SegmentInfo.id).map (maskEq g) := by
      rw [List.map_map]; rfl
    rw [hrw]
    exact masksDisjoint_map g _
      (hids.sublist (List.Sublist.map _ (List.filter_sublist segs)))
  · rw [insLoop_acc g segs [] []]
    simp only [List.nil_append]
    have hrw : (segs.filter (fun s =>
          (s.iscrowd.isNone || s.iscrowd == some false) && s.isthing)).map
          (fun s => maskEq g s.id)
        = ((segs.filter (fun s =>
            (s.iscrowd.isNone || s.iscrowd == some false) && s.isthing)).map
            SegmentInfo.id).map (maskEq g) := by
      rw [List.map_map]; rfl
    rw [hrw]
    exact masksDisjoint_map g _
      (hids.sublist (List.Sublist.map _ (List.filter_sublist segs)))
  · rw [semMasks, semMasksLoop_acc]
    simp only [List.nil_append]
    refine masksDisjoint_map g _ ?_
    exact List.Nodup.filter _ (Finset.sort_nodup _ _)

/-- Witness for C7 at a concrete label map and segment table. -/
theorem bundle_masks_disjoint_witness :
    (∀ cs ms, panLoop gEx segsEx ([], []) = .ok (cs, ms) →
      MasksDisjoint ms) ∧
    MasksDisjoint (insLoop gEx segsEx ([], [])).2 ∧
    MasksDisjoint (semMasks gEx 255) :=
  bundle_masks_disjoint gEx segsEx 255 (by decide)

/-- A concrete environment: the loaders return the small example grids
and the augmentation pipeline is the identity transform sequence. -/
def envEx : Env :=
  { readImage := fun _ => gEx
    readSem := fun _ => gEx
    augImage := fun g => g
    augSem := fun g => g
    readPan := fun _ => gEx
    augSeg := fun g => g }

/-- A record with only an image file: no semantic label, no panoptic
label, no segment table. -/
def rec9 : Record :=
  { file_name := some "img.png"
    sem_seg_file_name := none
    pan_seg_file_name := none
    segments_info := []
    hasBoxField := false }

/-- C9 counterexample: the image path field file_name is read at line 70
and its content is loaded, yet the returned record still carries it: the
call on this record succeeds and the output file_name is unchanged,
contradicting the claim that every consumed path field is absent from
the output. -/
theorem file_name_kept_cex :
    (mapperCall envEx rec9).map (fun r => r.file_name) =
      .ok (some "img.png") := by
  rfl

/-- C9 amended: on every successful call the consumed label path fields
sem_seg_file_name (popped at line 76) and pan_seg_file_name (popped at
line 90) are absent from the output record, but file_name, although its
content was loaded, remains in the output unchanged. -/
theorem path_fields_amended (env : Env) (d out : Record)
    (h : mapperCall env d = .ok out) :
    out.sem_seg_file_name = none ∧ out.pan_seg_file_name = none ∧
    out.file_name = d.file_name := by
  cases hfn : d.file_name with
  | none =>
    simp only [mapperCall, hfn] at h
    exact Except.noConfusion h
  | some fp =>
    simp only [mapperCall, hfn] at h
    cases hpan : d.pan_seg_file_name with
    | none =>
      rw [hpan] at h
      simp only [Except.ok.injEq] at h
      subst h
      simp [hpan, hfn]
    | some pp =>
      rw [hpan] at h
      cases hbox : d.hasBoxField with
      | true =>
        rw [hbox] at h
        simp only [if_pos] at h
        exact Except.noConfusion h
      | false =>
        rw [hbox] at h
        simp only [Bool.false_eq_true, if_false] at h
        cases hploop : panLoop (env.augSeg (env.readPan pp))
            d.segments_info ([], []) with
        | error e =>
          simp only [hploop] at h
          exact Except.noConfusion h
        | ok pr =>
          obtain ⟨cs, ms⟩ := pr
          simp only [hploop] at h
          by_cases hemp : (insLoop (env.augSeg (env.readPan pp))
              d.segments_info ([], [])).2.isEmpty
          · rw [if_pos hemp] at h
            exact Except.noConfusion h
          · rw [if_neg hemp] at h
            cases hsem : d.sem_seg_file_name with
            | some sp =>
              simp only [hsem, Option.map_some] at h
              exact Except.noConfusion h
            | none =>
              simp only [hsem, Option.map_none', Except.ok.injEq] at h
              subst h
              simp [hfn]

/-- Witness for the amended C9 on a record carrying only an image. -/
theorem path_fields_amended_witness :
    rec9.sem_seg_file_name = none ∧ rec9.pan_seg_file_name = none ∧
    rec9.file_name = rec9.file_name :=
  path_fields_amended envEx rec9 rec9 rfl

/-- A record carrying both panoptic fields and the box-style field. -/
def rec6 : Record :=
  { file_name := some "img.png"
    sem_seg_file_name := none
    pan_seg_file_name := some "pan.png"
    segments_info := []
    hasBoxField := true }

/-- C6: the call raises the descriptive ValueError of line 108 exactly
when the record carries panoptic fields together with the box-style
field; in particular a record without that field never reaches this
error, and a record with both fields produces no output record. -/
theorem mixed_fields_iff (env : Env) (d : Record)
    (hfn : d.file_name.isSome) :
    mapperCall env d = .error .mixedFieldsError ↔
      d.pan_seg_file_name.isSome ∧ d.hasBoxField = true := by
  obtain ⟨fp, hfp⟩ := Option.isSome_iff_exists.mp hfn
  cases hpan : d.pan_seg_file_name with
  | none =>
    simp only [mapperCall, hfp, hpan]
    simp
  | some pp =>
    cases hbox : d.hasBoxField with
    | true =>
      simp only [mapperCall, hfp, hpan, hbox]
      simp
    | false =>
      simp only [mapperCall, hfp, hpan, hbox, Bool.false_eq_true, if_false]
      constructor
      · intro h
        exfalso
        cases hploop : panLoop (env.augSeg (env.readPan pp))
            d.segments_info ([], []) with
        | error e =>
          simp only [hploop] at h
          have he := panLoop_error _ _ _ _ hploop
          subst he
          exact PyError.noConfusion (Except.error.inj h)
        | ok pr =>
          obtain ⟨cs, ms⟩ := pr
          simp only [hploop] at h
          by_cases hemp : (insLoop (env.augSeg (env.readPan pp))
              d.segments_info ([], [])).2.isEmpty
          · rw [if_pos hemp] at h
            exact PyError.noConfusion (Except.error.inj h)
          · rw [if_neg hemp] at h
            cases hsem : d.sem_seg_file_name with
            | some sp =>
              simp only [hsem, Option.map_some'] at h
              exact PyError.noConfusion (Except.error.inj h)
            | none =>
              simp only [hsem, Option.map_none'] at h
              exact Except.noConfusion h
      · intro hcon
        exact absurd hcon.2 (by simp [hbox])

/-- Witness for C6 on a record with both panoptic and box fields. -/
theorem mixed_fields_iff_witness :
    mapperCall envEx rec6 = .error .mixedFieldsError ↔
      rec6.pan_seg_file_name.isSome ∧ rec6.hasBoxField = true :=
  mixed_fields_iff envEx rec6 rfl

/-- A record whose single segment is a crowd thing, so no segment
qualifies for the instance bundle. -/
def rec5 : Record :=
  { file_name := some "img.png"
    sem_seg_file_name := none
    pan_seg_file_name := some "pan.png"
    segments_info := [⟨7, 3, some true, true⟩]
    hasBoxField := false }

/-- C5: contrary to the claim, a record whose segments all fail the
instance filter does not yield empty mask and box collections: the
empty branch of lines 149-152 evaluates the name Boxes, which this
module never imports (line 12 imports only BitMasks and Instances), so
the call raises NameError and attaches no bundle. -/
theorem empty_ins_raises :
    mapperCall envEx rec5 = .error .nameErrorBoxes := by
  rfl

/-- A record whose first segment lacks the iscrowd key. -/
def rec10 : Record :=
  { file_name := some "img.png"
    sem_seg_file_name := none
    pan_seg_file_name := some "pan.png"
    segments_info := [⟨4, 9, none, true⟩, ⟨5, 8, some false, true⟩]
    hasBoxField := false }

/-- C10: a segment lacking the iscrowd key passes the instance filter
of lines 140-145 exactly when its isthing flag is set (the missing key
counts as non-crowd), while the panoptic loop of lines 115-119 raises
KeyError on the same table, so the whole call fails with that KeyError
and no bundle is attached. -/
theorem missing_iscrowd_split (env : Env) (d : Record) (s : SegmentInfo)
    (hs : s ∈ d.segments_info) (hnone : s.iscrowd = none)
    (hfn : d.file_name.isSome) (hpan : d.pan_seg_file_name.isSome)
    (hbox : d.hasBoxField = false) :
    (s ∈ d.segments_info.filter (fun t =>
        (t.iscrowd.isNone || t.iscrowd == some false) && t.isthing) ↔
      s.isthing = true) ∧
    (∀ g : Grid, insLoop g d.segments_info ([], []) =
      ((d.segments_info.filter (fun t =>
          (t.iscrowd.isNone || t.iscrowd == some false) && t.isthing)).map
        (fun t => t.category_id),
       (d.segments_info.filter (fun t =>
          (t.iscrowd.isNone || t.iscrowd == some false) && t.isthing)).map
        (fun t => maskEq g t.id))) ∧
    mapperCall env d = .error .keyErrorIscrowd := by
  refine ⟨?_, ?_, ?_⟩
  · simp [List.mem_filter, hs, hnone]
  · intro g
    simpa using insLoop_acc g d.segments_info [] []
  · obtain ⟨fp, hfp⟩ := Option.isSome_iff_exists.mp hfn
    obtain ⟨pp, hpp⟩ := Option.isSome_iff_exists.mp hpan
    have hm := panLoop_missing (env.augSeg (env.readPan pp))
      d.segments_info ⟨s, hs, hnone⟩ ([], [])
    simp only [mapperCall, hfp, hpp, hbox, Bool.false_eq_true, if_false, hm]

/-- Witness for C10 on a table whose first segment lacks iscrowd. -/
theorem missing_iscrowd_split_witness :
    ((⟨4, 9, none, true⟩ : SegmentInfo) ∈ rec10.segments_info.filter
        (fun t => (t.iscrowd.isNone || t.iscrowd == some false) && t.isthing) ↔
      (⟨4, 9, none, true⟩ : SegmentInfo).isthing = true) ∧
    (∀ g : Grid, insLoop g rec10.segments_info ([], []) =
      ((rec10.segments_info.filter (fun t =>
          (t.iscrowd.isNone || t.iscrowd == some false) && t.isthing)).map
        (fun t => t.category_id),
       (rec10.segments_info.filter (fun t =>
          (t.iscrowd.isNone || t.iscrowd == some false) && t.isthing)).map
        (fun t => maskEq g t.id))) ∧
    mapperCall envEx rec10 = .error .keyErrorIscrowd :=
  missing_iscrowd_split envEx rec10 ⟨4, 9, none, true⟩
    (by decide) rfl rfl rfl rfl

/-- A record with one plain thing segment. -/
def rec8 : Record :=
  { file_name := some "img.png"
    sem_seg_file_name := none
    pan_seg_file_name := some "pan.png"
    segments_info := [⟨1, 2, some false, true⟩]
    hasBoxField := false }

/-- C8: whenever a call succeeds and attaches an instance bundle, the
bundle has at least one kept segment and its boxes are exactly the
boxes recomputed from its masks by the pure box extractor, index by
index. -/
theorem boxes_from_masks (env : Env) (d out : Record) (ib : Instances)
    (hin : d.ins_instances = none)
    (h : mapperCall env d = .ok out)
    (hib : out.ins_instances = some ib) :
    ib.gt_masks ≠ [] ∧
    ib.gt_boxes = some (ib.gt_masks.map (maskBox ib.H ib.W)) ∧
    (∀ bs, ib.gt_boxes = some bs →
      ∀ i (hi : i < bs.length) (hm : i < ib.gt_masks.length),
        bs.get ⟨i, hi⟩ = maskBox ib.H ib.W (ib.gt_masks.get ⟨i, hm⟩)) := by
  cases hfn : d.file_name with
  | none =>
    simp only [mapperCall, hfn] at h
    exact Except.noConfusion h
  | some fp =>
    simp only [mapperCall, hfn] at h
    cases hpan : d.pan_seg_file_name with
    | none =>
      rw [hpan] at h
      simp only [Except.ok.injEq] at h
      subst h
      rw [show ({ d with sem_seg_file_name := none } : Record).ins_instances
            = d.ins_instances from rfl, hin] at hib
      exact Option.noConfusion hib
    | some pp =>
      rw [hpan] at h
      cases hbox : d.hasBoxField with
      | true =>
        rw [hbox] at h
        simp only [if_pos] at h
        exact Except.noConfusion h
      | false =>
        rw [hbox] at h
        simp only [Bool.false_eq_true, if_false] at h
        cases hploop : panLoop (env.augSeg (env.readPan pp))
            d.segments_info ([], []) with
        | error e =>
          simp only [hploop] at h
          exact Except.noConfusion h
        | ok pr =>
          obtain ⟨cs, ms⟩ := pr
          simp only [hploop] at h
          by_cases hemp : (insLoop (env.augSeg (env.readPan pp))
              d.segments_info ([], [])).2.isEmpty
          · rw [if_pos hemp] at h
            exact Except.noConfusion h
          · rw [if_neg hemp] at h
            cases hsem : d.sem_seg_file_name with
            | some sp =>
              simp only [hsem, Option.map_some'] at h
              exact Except.noConfusion h
            | none =>
              simp only [hsem, Option.map_none', Except.ok.injEq] at h
              subst h
              simp only [Option.some.injEq] at hib
              subst hib
              refine ⟨by simpa [List.isEmpty_iff] using hemp, rfl, ?_⟩
              intro bs hbs i hi hm
              simp only [insBoxes, Option.some.injEq] at hbs
              subst hbs
              simp [insBoxes, List.get_eq_getElem, List.getElem_map]

/-- The instance bundle the mapper attaches for rec8 under envEx. -/
def ib8 : Instances :=
  ⟨2, 3, [2], [maskEq gEx 1], some (insBoxes 2 3 [maskEq gEx 1])⟩

/-- The output record of the call on rec8 under envEx. -/
def out8 : Record :=
  { rec8 with
    pan_seg_file_name := none
    pan_instances := some ⟨2, 3, [2], [maskEq gEx 1], none⟩
    ins_instances := some ib8 }

/-- Witness for C8 on a record with one kept segment. -/
theorem boxes_from_masks_witness :
    ib8.gt_masks ≠ [] ∧
    ib8.gt_boxes = some (ib8.gt_masks.map (maskBox ib8.H ib8.W)) ∧
    (∀ bs, ib8.gt_boxes = some bs →
      ∀ i (hi : i < bs.length) (hm : i < ib8.gt_masks.length),
        bs.get ⟨i, hi⟩ = maskBox ib8.H ib8.W (ib8.gt_masks.get ⟨i, hm⟩)) :=
  boxes_from_masks envEx rec8 out8 ib8 rfl rfl rfl

end Claims

end FreeSeg
